import Mathlib

/-!
Verification of the Pour Record Store & Reporting Engine (`src/main.py`)
against its natural-language specification.

The Python module is shallowly embedded: the module-level globals `pours`,
`deleted_pours` and the snapshot file become an explicit `StoreState`;
route handlers become pure functions from inputs and a `StoreState` to a
result and a new `StoreState` (an uncaught `HTTPException` is an `Except`
error, raised before any mutation, so the state component is returned
unchanged in that case).  `uuid4()` is modeled by passing the freshly drawn
identifier as an argument.  Float volumes are modeled as exact decimal
rationals, which agrees with Python's float formatting on every value whose
decimal form is exactly representable in binary (such as 12.5 and 12.25,
the only volumes any property evaluates).
-/

namespace ConcretePour

/-- Calendar date `(year, month, day)`.  The Python model stores a
`datetime`, but the application only ever constructs midnight datetimes
(via `strptime("%Y-%m-%d")`) and the spec declares time-of-day not
semantically meaningful, so the embedding keeps the calendar date. -/
structure Date where
  year : Nat
  month : Nat
  day : Nat
deriving DecidableEq, Repr

/-- Gregorian leap-year rule used by Python's `datetime` validation. -/
def leapYear (y : Nat) : Bool :=
  y % 4 == 0 && (y % 100 != 0 || y % 400 == 0)

/-- Number of days of month `m` in year `y`, as `datetime` validates it. -/
def daysInMonth (y m : Nat) : Nat :=
  if m == 2 then (if leapYear y then 29 else 28)
  else if m == 4 || m == 6 || m == 9 || m == 11 then 30
  else 31

/-- Comparison of datetimes restricted to the date part: lexicographic on
`(year, month, day)`.  This is the order `sorted(pours, key=lambda x: x.date)`
sorts by. -/
def dateLe (a b : Date) : Bool :=
  Nat.blt a.year b.year ||
    (a.year == b.year && (Nat.blt a.month b.month ||
      (a.month == b.month && Nat.ble a.day b.day)))

/-- Zero-pad a numeral to two digits, as `strftime` does for `%m`/`%d`. -/
def pad2 (n : Nat) : String :=
  if n < 10 then "0" ++ toString n else toString n

/-- `p.date.strftime("%Y-%m-%d")`. -/
def dateStrf (d : Date) : String :=
  toString d.year ++ "-" ++ pad2 d.month ++ "-" ++ pad2 d.day

/-! ### Float formatting

`calendar_view` interpolates the volume with `f"{p.volume_m3}"` (Python's
shortest round-trip float repr) and `export_pdf` with `f"{p.volume_m3:.1f}"`
(fixed one decimal, ties to even).  Volumes are embedded as exact decimal
rationals; on decimals exactly representable as binary floats both Python
formats agree with the exact-decimal computations below. -/

/-- Smallest exponent `e ≤ 25` with `d ∣ 10 ^ e`, i.e. the number of decimal
digits needed after the point to write `1 / d` exactly. -/
def decExp (d : Nat) : Option Nat :=
  (List.range 26).find? (fun e => 10 ^ e % d == 0)

/-- Left-pad a digit string with zeros to length `e`. -/
def padZeros (e : Nat) (s : String) : String :=
  String.mk (List.replicate (e - s.length) '0') ++ s

/-- `f"{x}"` on a float holding the exact decimal `q`: the shortest decimal
form, with `.0` appended to integral values (Python prints `12.0`, not `12`). -/
def fPyRepr (q : ℚ) : String :=
  match decExp q.den with
  | none => toString q.num ++ "/" ++ toString q.den
  | some 0 => toString q.num ++ ".0"
  | some e =>
    let n := q.num.natAbs * 10 ^ e / q.den
    let ip := n / 10 ^ e
    let fp := n % 10 ^ e
    (if q.num < 0 then "-" else "") ++ toString ip ++ "." ++ padZeros e (toString fp)

/-- `f"{x:.1f}"` on a float holding the exact decimal `q`: round to tenths
with ties to even, then print with exactly one digit after the point. -/
def fFixed1 (q : ℚ) : String :=
  let t : ℚ := q * 10
  let f : Int := t.floor
  let r : ℚ := t - (f : ℚ)
  let n : Int :=
    if r < 1/2 then f
    else if 1/2 < r then f + 1
    else if f % 2 = 0 then f else f + 1
  let a : Nat := n.natAbs
  (if n < 0 then "-" else "") ++ toString (a / 10) ++ "." ++ toString (a % 10)

/-! ### Company registry -/

/-- `PREDEFINED_COMPANIES = ["PCL", "Graham", "Bird"]`. -/
def PREDEFINED_COMPANIES : List String := ["PCL", "Graham", "Bird"]

/-- `COMPANY_COLORS` dictionary. -/
def COMPANY_COLORS : List (String × String) :=
  [("PCL", "#C7A600"), ("Graham", "#FF0000"), ("Bird", "#008000")]

/-- `COMPANY_COLORS.get(name, "#000000")`. -/
def colorFor (name : String) : String :=
  match COMPANY_COLORS.find? (fun kv => kv.fst == name) with
  | some kv => kv.snd
  | none => "#000000"

/-! ### Records -/

/-- The `Pour` pydantic model.  The `UUID` id is embedded as a `Nat`
(identifiers are opaque tokens: only equality and string rendering are
used). -/
structure Pour where
  id : Nat
  company : String
  area : String
  tag : String
  date : Date
  volume_m3 : ℚ
  comment : Option String
deriving DecidableEq, Repr

/-- The `PourCreate` pydantic model (a `Pour` without the id). -/
structure PourCreate where
  company : String
  area : String
  tag : String
  date : Date
  volume_m3 : ℚ
  comment : Option String
deriving DecidableEq, Repr

/-! ### Snapshot persistence

`save_data` writes `[p.dict() for p in pours]` with `json.dump(default=str)`;
`load_data` runs `json.load` and re-validates each object with `Pour(**d)`.
A decoded-but-unvalidated object is a `RawRecord`: each required field is
`some v` when present and decodable to its target type (id parseable as a
UUID, date parseable as a datetime, volume as a float) and `none` when
missing or undecodable; `comment` has a default, so absent and null both
collapse to `none`. -/
structure RawRecord where
  id : Option Nat
  company : Option String
  area : Option String
  tag : Option String
  date : Option Date
  volume_m3 : Option ℚ
  comment : Option String
deriving DecidableEq, Repr

/-- `p.dict()` serialized through `json.dump(default=str)`: every field is
present and round-trips (the UUID and datetime string forms parse back to
the same values). -/
def serializePour (p : Pour) : RawRecord :=
  ⟨some p.id, some p.company, some p.area, some p.tag,
   some p.date, some p.volume_m3, p.comment⟩

/-- `Pour(**d)`: pydantic validation of one decoded record; fails when a
required field is missing or undecodable. -/
def parsePour (r : RawRecord) : Option Pour :=
  match r.id, r.company, r.area, r.tag, r.date, r.volume_m3 with
  | some i, some c, some a, some t, some d, some v =>
    some ⟨i, c, a, t, d, v, r.comment⟩
  | _, _, _, _, _, _ => none

/-- The state of the snapshot file `pours.json`: absent, present but not
decodable as JSON (`json.load` raises `JSONDecodeError`), or decodable as a
JSON array of objects.  A snapshot the application itself wrote is always
an array of objects, so corrupt variants of interest are `invalidJson` and
`records` whose entries fail validation. -/
inductive SnapshotFile where
  | missing
  | invalidJson
  | records (rs : List RawRecord)
deriving DecidableEq, Repr

/-- The list comprehension `[Pour(**d) for d in data]`: validates records
left to right; the first pydantic validation failure propagates as an
uncaught exception, modeled as `Except.error`. -/
def loadRecords : List RawRecord → Except String (List Pour)
  | [] => .ok []
  | r :: rest =>
    match parsePour r with
    | some p =>
      match loadRecords rest with
      | .ok ps => .ok (p :: ps)
      | .error e => .error e
    | none => .error "pydantic ValidationError"

/-- `load_data()`: missing file → `[]`; `JSONDecodeError` → `[]` (the only
exception the `try` catches); otherwise `[Pour(**d) for d in data]`. -/
def load_data : SnapshotFile → Except String (List Pour)
  | .missing => .ok []
  | .invalidJson => .ok []
  | .records rs => loadRecords rs

/-- `save_data()`: serializes the active list — and only the active list —
to the snapshot file. -/
def save_data (pours : List Pour) : SnapshotFile :=
  .records (pours.map serializePour)

/-- The module-level mutable state: `pours`, `deleted_pours`, and the
snapshot file on disk. -/
structure StoreState where
  pours : List Pour
  deleted : List Pour
  snapshot : SnapshotFile
deriving DecidableEq, Repr

/-- Process start: `pours = load_data(); deleted_pours = []`.  `none` when
`load_data` raises (startup aborts). -/
def startupState (f : SnapshotFile) : Option StoreState :=
  match load_data f with
  | .ok ps => some ⟨ps, [], f⟩
  | .error _ => none

/-! ### Operations -/

/-- `Pour(id=uuid4(), **pour_data.dict())` with the drawn id made explicit. -/
def pourOfCreate (freshId : Nat) (pour_data : PourCreate) : Pour :=
  ⟨freshId, pour_data.company, pour_data.area, pour_data.tag,
   pour_data.date, pour_data.volume_m3, pour_data.comment⟩

/-- `POST /pour/` (`submit_pour`): reject unknown companies before any
mutation; otherwise append the new record and persist.  `freshId` stands
for the `uuid4()` draw. -/
def submit_pour (freshId : Nat) (pour_data : PourCreate) (s : StoreState) :
    (Except String Pour) × StoreState :=
  if pour_data.company ∈ PREDEFINED_COMPANIES then
    let pour := pourOfCreate freshId pour_data
    let pours' := s.pours ++ [pour]
    (.ok pour, ⟨pours', s.deleted, save_data pours'⟩)
  else
    (.error "Invalid company", s)

/-- One numeric component of `strptime("%Y-%m-%d")` for `%m`/`%d`.
CPython's directive regexes (`1[0-2]|0[1-9]|[1-9]` for `%m`,
`3[01]|[12]\d|0[1-9]|[1-9]` for `%d`) accept exactly the 1- or 2-digit
strings whose value lies in `[1, hi]`. -/
def parsePart (hi : Nat) (s : String) : Option Nat :=
  if (s.length == 1 || s.length == 2) && s.all Char.isDigit then
    match s.toNat? with
    | some v => if 1 ≤ v ∧ v ≤ hi then some v else none
    | none => none
  else none

/-- The `%Y` component: exactly four digits (CPython regex `\d\d\d\d`). -/
def parseYear (s : String) : Option Nat :=
  if s.length == 4 && s.all Char.isDigit then s.toNat? else none

/-- `datetime.strptime(s, "%Y-%m-%d")`: since `-` can only occur as the two
literal separators, the match decomposes as a 3-way split, each component
matching its directive in full (leftover characters raise `ValueError`),
followed by `datetime`'s calendar validation (`1 ≤ year`,
`day ≤ daysInMonth`). -/
def parse_date (s : String) : Option Date :=
  match s.splitOn "-" with
  | [ys, ms, ds] => do
    let y ← parseYear ys
    let m ← parsePart 12 ms
    let d ← parsePart 31 ds
    if 1 ≤ y ∧ d ≤ daysInMonth y m then some ⟨y, m, d⟩ else none
  | _ => none

/-- `POST /submit` (`handle_form`): parse the date (400 on `ValueError`),
check the company, then append and persist; on success the handler returns
a redirect, modeled as `Except.ok ()`. -/
def handle_form (freshId : Nat) (company area tag : String) (dateStr : String)
    (volume : ℚ) (comment : Option String) (s : StoreState) :
    (Except String Unit) × StoreState :=
  match parse_date dateStr with
  | none => (.error "Invalid date format", s)
  | some date_parsed =>
    if company ∈ PREDEFINED_COMPANIES then
      let pour : Pour := ⟨freshId, company, area, tag, date_parsed, volume, comment⟩
      let pours' := s.pours ++ [pour]
      (.ok (), ⟨pours', s.deleted, save_data pours'⟩)
    else
      (.error "Invalid company", s)

/-- `POST /delete/{pour_id}` (`delete_pour`): linear scan for the first
record with the given id; when found, `pours.remove(found)` (first equal
element), append to `deleted_pours`, persist.  The handler returns
`{"status": "deleted"}` on every path, matched or not. -/
def delete_pour (pour_id : Nat) (s : StoreState) : String × StoreState :=
  match s.pours.find? (fun p => p.id == pour_id) with
  | some found =>
    let pours' := s.pours.erase found
    ("deleted", ⟨pours', s.deleted ++ [found], save_data pours'⟩)
  | none => ("deleted", s)

/-! ### Projections -/

/-- The optional comment suffix: Python appends `f" | {p.comment}"` under
the truthiness test `if p.comment`, so `None` and the empty string both
yield no suffix. -/
def commentSuffix : Option String → String
  | some c => if c == "" then "" else " | " ++ c
  | none => ""

/-- Calendar event title:
`f"{p.company}: {p.tag} ({p.area}) - {p.volume_m3}m³"` plus the optional
comment suffix. -/
def eventTitle (p : Pour) : String :=
  p.company ++ ": " ++ p.tag ++ " (" ++ p.area ++ ") - " ++
    fPyRepr p.volume_m3 ++ "m³" ++ commentSuffix p.comment

/-- One calendar event dictionary of `calendar_view`. -/
structure CalEvent where
  id : String
  title : String
  start : String
  color : String
deriving DecidableEq, Repr

/-- The `events` list of `calendar_view`: one event per active record, in
store order. -/
def calendar_events (s : StoreState) : List CalEvent :=
  s.pours.map (fun p =>
    ⟨toString p.id, eventTitle p, dateStrf p.date, colorFor p.company⟩)

/-- One `<li>` line of the deleted-pour log. -/
def deletedLine (p : Pour) : String :=
  "<li>" ++ dateStrf p.date ++ " - " ++ p.company ++ ": " ++ p.tag ++
    " (" ++ p.area ++ ") - " ++ fPyRepr p.volume_m3 ++ "m³" ++
    commentSuffix p.comment ++ "</li>"

/-- The deleted log of `calendar_view`: `deleted_pours[::-1]`, formatted. -/
def deleted_log (s : StoreState) : List String :=
  s.deleted.reverse.map deletedLine

/-- One body row of the PDF table. -/
structure Row where
  date : String
  company : String
  area : String
  tag : String
  volume : String
  comment : String
deriving DecidableEq, Repr

/-- The row `export_pdf` writes for one record: date via `strftime`, volume
via `:.1f`, `p.comment or ""`. -/
def pourRow (p : Pour) : Row :=
  ⟨dateStrf p.date, p.company, p.area, p.tag, fFixed1 p.volume_m3,
   p.comment.getD ""⟩

/-- `sorted(pours, key=lambda x: x.date)`: Python's stable sort by date. -/
def export_sorted (s : StoreState) : List Pour :=
  s.pours.mergeSort (fun a b => dateLe a.date b.date)

/-- The body rows of `export_pdf`, in the order they are written. -/
def export_rows (s : StoreState) : List Row :=
  (export_sorted s).map pourRow

/-- The record-state invariant: no id occurs twice across the active and
deleted collections together, so each id belongs to at most one record and
that record is in exactly one collection. -/
def StoreInv (s : StoreState) : Prop :=
  ((s.pours ++ s.deleted).map Pour.id).Nodup

/-! ### Concrete records used by the property instances -/

/-- Active record dated 2024-03-10. -/
def pMar10 : Pour := ⟨1, "PCL", "North", "Slab-1", ⟨2024, 3, 10⟩, 10, none⟩

/-- Active record dated 2024-01-05. -/
def pJan05 : Pour := ⟨2, "Graham", "South", "Slab-2", ⟨2024, 1, 5⟩, 11, none⟩

/-- Active record dated 2024-02-20. -/
def pFeb20 : Pour := ⟨3, "Bird", "East", "Slab-3", ⟨2024, 2, 20⟩, 12, none⟩

/-- The spec's title-formatting example record, comment absent. -/
def pBird : Pour := ⟨9, "Bird", "West Wing", "Slab-4", ⟨2024, 3, 15⟩, 12.5, none⟩

/-- The title-formatting example with `comment = "rain delay"`. -/
def pBirdC : Pour :=
  ⟨9, "Bird", "West Wing", "Slab-4", ⟨2024, 3, 15⟩, 12.5, some "rain delay"⟩

/-- The title-formatting example with a present but empty comment. -/
def pBirdE : Pour := ⟨9, "Bird", "West Wing", "Slab-4", ⟨2024, 3, 15⟩, 12.5, some ""⟩

/-- The example record with volume 12.25 (exactly representable in binary). -/
def p1225 : Pour := ⟨4, "Bird", "West Wing", "Slab-4", ⟨2024, 3, 15⟩, 12.25, none⟩

/-- A decoded snapshot record that fails pydantic validation (all required
fields missing; e.g. the file content `[{}]`, which is valid JSON). -/
def badRaw : RawRecord := ⟨none, none, none, none, none, none, none⟩

/-! ### Helper lemmas -/

/-- `dateLe` is transitive. -/
theorem dateLe_trans (a b c : Date) (hab : dateLe a b) (hbc : dateLe b c) :
    dateLe a c := by
  simp only [dateLe, Bool.or_eq_true, Bool.and_eq_true, Nat.blt_eq, Nat.ble_eq,
    beq_iff_eq] at *
  omega

/-- `dateLe` is total. -/
theorem dateLe_total (a b : Date) : dateLe a b || dateLe b a := by
  simp only [dateLe, Bool.or_eq_true, Bool.and_eq_true, Nat.blt_eq, Nat.ble_eq,
    beq_iff_eq]
  omega

/-- Validation inverts serialization record by record. -/
theorem parse_serialize (p : Pour) : parsePour (serializePour p) = some p := rfl

/-- Appending a record with a fresh id preserves the disjointness invariant,
whatever snapshot is written alongside. -/
theorem append_fresh_inv (s : StoreState) (p : Pour) (snap : SnapshotFile)
    (hs : StoreInv s) (hfresh : p.id ∉ (s.pours ++ s.deleted).map Pour.id) :
    StoreInv ⟨s.pours ++ [p], s.deleted, snap⟩ := by
  show ((List.map Pour.id ((s.pours ++ [p]) ++ s.deleted)).Nodup)
  have hperm : ((s.pours ++ [p]) ++ s.deleted).Perm (p :: (s.pours ++ s.deleted)) :=
    (List.perm_append_singleton _ _).append_right s.deleted
  refine ((hperm.map Pour.id).nodup_iff).mpr ?_
  exact List.nodup_cons.mpr ⟨by simpa using hfresh, hs⟩

/-! ### Claims -/

/-- C1: for every id matching an active record, `delete_pour` removes that
record from the active list, appends it to the tail of the deleted list,
persists the updated active-set snapshot, and the deleted log afterwards
lists the deleted set in reverse-insertion order, so the just-deleted
record is its first line. -/
theorem C1_delete_moves_record_and_reverse_log (s : StoreState) (i : Nat) (p : Pour)
    (h : s.pours.find? (fun q => q.id == i) = some p) :
    (delete_pour i s).2.pours = s.pours.erase p ∧
    (delete_pour i s).2.deleted = s.deleted ++ [p] ∧
    (delete_pour i s).2.snapshot = save_data (s.pours.erase p) ∧
    deleted_log (delete_pour i s).2 = deletedLine p :: deleted_log s := by
  simp [delete_pour, h, deleted_log, List.reverse_append]

/-- Witness for C1 at a one-record store. -/
theorem C1_witness :
    ([pMar10].find? (fun q => q.id == 1) = some pMar10) ∧
    ((delete_pour 1 ⟨[pMar10], [], .missing⟩).2.pours = [pMar10].erase pMar10 ∧
     (delete_pour 1 ⟨[pMar10], [], .missing⟩).2.deleted = [] ++ [pMar10] ∧
     (delete_pour 1 ⟨[pMar10], [], .missing⟩).2.snapshot =
       save_data ([pMar10].erase pMar10) ∧
     deleted_log (delete_pour 1 ⟨[pMar10], [], .missing⟩).2 =
       deletedLine pMar10 :: deleted_log ⟨[pMar10], [], .missing⟩) :=
  ⟨rfl, C1_delete_moves_record_and_reverse_log ⟨[pMar10], [], .missing⟩ 1 pMar10 rfl⟩

/-- C2 counterexample: deleting an id that matches no active record does
return without error and without touching the collections, but the
response is the constant `{"status": "deleted"}` — byte-identical to the
response of a successful delete — so the operation does not return false
or any result indicating `deleted: false`, contrary to the claim. -/
theorem C2_counterexample :
    (delete_pour 7 ⟨[pMar10], [], .missing⟩).1 = "deleted" ∧
    (delete_pour 7 ⟨[pMar10], [], .missing⟩).1 =
      (delete_pour 1 ⟨[pMar10], [], .missing⟩).1 :=
  ⟨rfl, rfl⟩

/-- C2 amended: for every id matching no active record, `delete_pour` is a
no-op — it never throws and returns the state unchanged (so both
collections keep their sizes and contents) — and it returns the same
`{"status": "deleted"}` response a successful delete returns, rather than
a `deleted: false` indicator or an error. -/
theorem C2_unmatched_delete_noop (s : StoreState) (i : Nat)
    (h : ∀ p ∈ s.pours, p.id ≠ i) :
    delete_pour i s = ("deleted", s) := by
  have hf : s.pours.find? (fun p => p.id == i) = none :=
    List.find?_eq_none.mpr (fun p hp => by simpa using h p hp)
  simp [delete_pour, hf]

/-- Witness for C2 at an unmatched id. -/
theorem C2_witness :
    (∀ p ∈ ([pMar10] : List Pour), p.id ≠ 7) ∧
    delete_pour 7 ⟨[pMar10], [], .missing⟩ = ("deleted", ⟨[pMar10], [], .missing⟩) :=
  ⟨by decide, C2_unmatched_delete_noop ⟨[pMar10], [], .missing⟩ 7 (by decide)⟩

/-- C3 counterexample: a snapshot file whose content is valid JSON (so
`json.load` succeeds) but whose records fail pydantic validation — e.g.
the file content `[{}]` — makes `load_data` raise an uncaught exception
instead of yielding an empty active set, and startup fails, contrary to
the claim that startup is never blocked by snapshot content. -/
theorem C3_counterexample :
    load_data (.records [badRaw]) = .error "pydantic ValidationError" ∧
    startupState (.records [badRaw]) = none :=
  ⟨rfl, rfl⟩

/-- C3 amended: on process start a missing snapshot file yields an empty
active set, and a file the JSON decoder rejects also yields an empty
active set (only `json.JSONDecodeError` is caught); but a snapshot whose
JSON decodes while a record fails model validation raises an uncaught
error and blocks startup. -/
theorem C3_load_best_effort :
    load_data .missing = .ok [] ∧
    load_data .invalidJson = .ok [] ∧
    startupState .missing = some ⟨[], [], .missing⟩ ∧
    load_data (.records [badRaw]) = .error "pydantic ValidationError" :=
  ⟨rfl, rfl, rfl, rfl⟩

/-- C4: serializing any active set to the snapshot and loading it back
yields a field-by-field equal active set; and the deleted set is never
restored from the snapshot — after every successful startup it is empty
(`save_data` takes only the active list, so the deleted set is never
written either). -/
theorem C4_snapshot_roundtrip :
    (∀ ps : List Pour, load_data (save_data ps) = .ok ps) ∧
    (∀ (f : SnapshotFile) (s : StoreState), startupState f = some s → s.deleted = []) := by
  constructor
  · intro ps
    induction ps with
    | nil => rfl
    | cons p t ih =>
      simp only [save_data, load_data, List.map_cons, loadRecords, parse_serialize] at *
      simp [ih]
  · intro f s h
    unfold startupState at h
    cases hl : load_data f with
    | ok ps => rw [hl] at h; cases h; rfl
    | error e => rw [hl] at h; cases h

/-- Witness for C4: round-trip of a one-record active set, and the empty
deleted set of a concrete startup. -/
theorem C4_witness :
    load_data (save_data [pMar10]) = .ok [pMar10] ∧
    (⟨[], [], .missing⟩ : StoreState).deleted = [] :=
  ⟨C4_snapshot_roundtrip.1 [pMar10],
   C4_snapshot_roundtrip.2 .missing ⟨[], [], .missing⟩ rfl⟩

/-- C5: `submit_pour` with company "Acme" (outside the registry) fails with
the validation error and returns the store — active set, deleted set and
persisted snapshot — completely unchanged; with company "PCL" and the same
remaining fields it succeeds, returning the created record. -/
theorem C5_company_validation (s : StoreState) (freshId : Nat) (area tag : String)
    (d : Date) (v : ℚ) (c : Option String) :
    submit_pour freshId ⟨"Acme", area, tag, d, v, c⟩ s = (.error "Invalid company", s) ∧
    (submit_pour freshId ⟨"PCL", area, tag, d, v, c⟩ s).1 =
      .ok ⟨freshId, "PCL", area, tag, d, v, c⟩ ∧
    (submit_pour freshId ⟨"PCL", area, tag, d, v, c⟩ s).2.pours =
      s.pours ++ [⟨freshId, "PCL", area, tag, d, v, c⟩] := by
  refine ⟨?_, ?_, ?_⟩ <;> simp [submit_pour, PREDEFINED_COMPANIES, pourOfCreate]

/-- C6 counterexample: the date string "2024-3-15" deviates from the
`YYYY-MM-DD` layout (the month is not zero-padded), yet `handle_form`
accepts it — `strptime` matches one- or two-digit months and days — and
stores the record, contrary to the claim that any deviation fails with a
`FormatError`. -/
theorem C6_counterexample :
    (handle_form 5 "PCL" "A" "T" "2024-3-15" 10 none ⟨[], [], .missing⟩).1 = .ok () ∧
    (handle_form 5 "PCL" "A" "T" "2024-3-15" 10 none ⟨[], [], .missing⟩).2.pours =
      [⟨5, "PCL", "A", "T", ⟨2024, 3, 15⟩, 10, none⟩] := by
  refine ⟨?_, ?_⟩ <;> with_unfolding_all rfl

/-- C6 amended: the create operation parses the date input with
`strptime("%Y-%m-%d")` semantics — a four-digit year and one- or two-digit
month and day forming a valid calendar date — and fails with a
`FormatError` on anything else without mutating the store: "2024-02-30"
(no such day) and "Feb 3" are rejected, "2024-03-15" succeeds and the
record is stored with that calendar date; zero-padding is not required,
so "2024-3-15" is also accepted and stored as 2024-03-15. -/
theorem C6_strptime_date_validation (s : StoreState) (freshId : Nat) (a t : String)
    (v : ℚ) (c : Option String) :
    handle_form freshId "PCL" a t "2024-02-30" v c s = (.error "Invalid date format", s) ∧
    handle_form freshId "PCL" a t "Feb 3" v c s = (.error "Invalid date format", s) ∧
    (handle_form freshId "PCL" a t "2024-03-15" v c s).1 = .ok () ∧
    (handle_form freshId "PCL" a t "2024-03-15" v c s).2.pours =
      s.pours ++ [⟨freshId, "PCL", a, t, ⟨2024, 3, 15⟩, v, c⟩] ∧
    (handle_form freshId "PCL" a t "2024-3-15" v c s).2.pours =
      s.pours ++ [⟨freshId, "PCL", a, t, ⟨2024, 3, 15⟩, v, c⟩] := by
  have h1 : parse_date "2024-02-30" = none := by with_unfolding_all rfl
  have h2 : parse_date "Feb 3" = none := by with_unfolding_all rfl
  have h3 : parse_date "2024-03-15" = some ⟨2024, 3, 15⟩ := by with_unfolding_all rfl
  have h4 : parse_date "2024-3-15" = some ⟨2024, 3, 15⟩ := by with_unfolding_all rfl
  refine ⟨?_, ?_, ?_, ?_, ?_⟩ <;> simp [handle_form, h1, h2, h3, h4, PREDEFINED_COMPANIES]

/-- C7: the export emits one row per active record (the rows are a
permutation of the per-record rows), the sort order is ascending by date,
and for the three records dated 2024-03-10, 2024-01-05, 2024-02-20 the
rows come out dated 2024-01-05, 2024-02-20, 2024-03-10 in every one of
the six insertion orders. -/
theorem C7_export_rows_sorted :
    (∀ s : StoreState, (export_rows s).Perm (s.pours.map pourRow)) ∧
    (∀ s : StoreState,
      List.Pairwise (fun p q : Pour => dateLe p.date q.date = true) (export_sorted s)) ∧
    (∀ l : List Pour,
      (l = [pMar10, pJan05, pFeb20] ∨ l = [pMar10, pFeb20, pJan05] ∨
       l = [pJan05, pMar10, pFeb20] ∨ l = [pJan05, pFeb20, pMar10] ∨
       l = [pFeb20, pMar10, pJan05] ∨ l = [pFeb20, pJan05, pMar10]) →
      (export_rows ⟨l, [], .missing⟩).map Row.date =
        ["2024-01-05", "2024-02-20", "2024-03-10"]) := by
  refine ⟨?_, ?_, ?_⟩
  · intro s
    exact (List.mergeSort_perm s.pours _).map pourRow
  · intro s
    apply List.sorted_mergeSort
    · exact fun a b c hab hbc => dateLe_trans a.date b.date c.date hab hbc
    · exact fun a b => dateLe_total a.date b.date
  · intro l h
    rcases h with h | h | h | h | h | h <;> subst h <;> with_unfolding_all rfl

/-- Witness for C7 at one concrete insertion order. -/
theorem C7_witness :
    (([pJan05, pMar10, pFeb20] : List Pour) = [pMar10, pJan05, pFeb20] ∨
     [pJan05, pMar10, pFeb20] = [pMar10, pFeb20, pJan05] ∨
     [pJan05, pMar10, pFeb20] = [pJan05, pMar10, pFeb20] ∨
     [pJan05, pMar10, pFeb20] = [pJan05, pFeb20, pMar10] ∨
     [pJan05, pMar10, pFeb20] = [pFeb20, pMar10, pJan05] ∨
     [pJan05, pMar10, pFeb20] = [pFeb20, pJan05, pMar10]) ∧
    (export_rows ⟨[pJan05, pMar10, pFeb20], [], .missing⟩).map Row.date =
      ["2024-01-05", "2024-02-20", "2024-03-10"] :=
  ⟨Or.inr (Or.inr (Or.inl rfl)),
   C7_export_rows_sorted.2.2 [pJan05, pMar10, pFeb20] (Or.inr (Or.inr (Or.inl rfl)))⟩

/-- C8 counterexample: the record `pBirdE` has a comment — `some ""`, a
present (non-null) value — yet its calendar title carries no `" | "`
suffix, because the code's truthiness test `if p.comment` treats the empty
string like `None`; so the suffix is not appended "exactly when a comment
is present" as claimed. -/
theorem C8_counterexample :
    pBirdE.comment = some "" ∧
    eventTitle pBirdE = "Bird: Slab-4 (West Wing) - 12.5m³" ∧
    eventTitle pBirdE ≠ "Bird: Slab-4 (West Wing) - 12.5m³ | " := by
  have he : eventTitle pBirdE = "Bird: Slab-4 (West Wing) - 12.5m³" := by
    with_unfolding_all rfl
  exact ⟨rfl, he, by rw [he]; decide⟩

/-- C8 amended: for every active record the calendar-event title is
`"{company}: {tag} ({area}) - {volume}m³"`, with `" | {comment}"` appended
exactly when a non-empty comment is present (a `None` comment and an empty
string both yield no suffix; the spec's example records behave as stated),
and the event color is the registry color of the company, defaulting to
black (`#000000`) for a company outside the registry. -/
theorem C8_title_and_color :
    (∀ (i : Nat) (company area tag : String) (d : Date) (v : ℚ),
      eventTitle ⟨i, company, area, tag, d, v, none⟩ =
        company ++ ": " ++ tag ++ " (" ++ area ++ ") - " ++ fPyRepr v ++ "m³" ∧
      eventTitle ⟨i, company, area, tag, d, v, some ""⟩ =
        company ++ ": " ++ tag ++ " (" ++ area ++ ") - " ++ fPyRepr v ++ "m³" ∧
      ∀ c : String, c ≠ "" →
        eventTitle ⟨i, company, area, tag, d, v, some c⟩ =
          (company ++ ": " ++ tag ++ " (" ++ area ++ ") - " ++ fPyRepr v ++ "m³") ++
            (" | " ++ c)) ∧
    (∀ (p : Pour) (s : StoreState), p ∈ s.pours →
      (⟨toString p.id, eventTitle p, dateStrf p.date, colorFor p.company⟩ : CalEvent) ∈
        calendar_events s) ∧
    (∀ name : String, name ≠ "PCL" → name ≠ "Graham" → name ≠ "Bird" →
      colorFor name = "#000000") ∧
    eventTitle pBird = "Bird: Slab-4 (West Wing) - 12.5m³" ∧
    eventTitle pBirdC = "Bird: Slab-4 (West Wing) - 12.5m³ | rain delay" ∧
    colorFor "Bird" = "#008000" := by
  refine ⟨?_, ?_, ?_, ?_, ?_, ?_⟩
  · intro i company area tag d v
    refine ⟨?_, ?_, ?_⟩
    · simp [eventTitle, commentSuffix]
    · simp [eventTitle, commentSuffix]
    · intro c hc
      simp [eventTitle, commentSuffix, hc]
  · intro p s hp
    exact List.mem_map.mpr ⟨p, hp, rfl⟩
  · intro name h1 h2 h3
    have e1 : ("PCL" == name) = false := beq_eq_false_iff_ne.mpr (Ne.symm h1)
    have e2 : ("Graham" == name) = false := beq_eq_false_iff_ne.mpr (Ne.symm h2)
    have e3 : ("Bird" == name) = false := beq_eq_false_iff_ne.mpr (Ne.symm h3)
    simp [colorFor, COMPANY_COLORS, List.find?, e1, e2, e3]
  · with_unfolding_all rfl
  · with_unfolding_all rfl
  · rfl

/-- Witness for C8: the non-empty-comment case and the unknown-company
default, at concrete inputs. -/
theorem C8_witness :
    ("rain delay" : String) ≠ "" ∧
    eventTitle ⟨9, "Bird", "West Wing", "Slab-4", ⟨2024, 3, 15⟩, 12.5, some "rain delay"⟩ =
      ("Bird" ++ ": " ++ "Slab-4" ++ " (" ++ "West Wing" ++ ") - " ++
        fPyRepr 12.5 ++ "m³") ++ (" | " ++ "rain delay") ∧
    colorFor "Acme" = "#000000" :=
  ⟨by decide,
   (C8_title_and_color.1 9 "Bird" "West Wing" "Slab-4" ⟨2024, 3, 15⟩ 12.5).2.2
     "rain delay" (by decide),
   C8_title_and_color.2.2.1 "Acme" (by decide) (by decide) (by decide)⟩

/-- C9: every mutating operation preserves the invariant that the active
and deleted collections are disjoint (no id occurs twice across the two
collections) — for the create operations under the freshness of the drawn
id, which `uuid4()` provides; and `delete_pour` moreover permutes records
between the two collections without dropping or duplicating any, so once
created a record stays in exactly one of them.  The read-only projections
(`calendar_events`, `deleted_log`, `export_rows`, the listings) are
functions of the state and mutate nothing by construction. -/
theorem C9_active_deleted_disjoint (s : StoreState) (hs : StoreInv s) :
    (∀ (freshId : Nat) (pd : PourCreate),
      freshId ∉ (s.pours ++ s.deleted).map Pour.id →
      StoreInv (submit_pour freshId pd s).2) ∧
    (∀ (freshId : Nat) (company area tag dateStr : String) (v : ℚ) (c : Option String),
      freshId ∉ (s.pours ++ s.deleted).map Pour.id →
      StoreInv (handle_form freshId company area tag dateStr v c s).2) ∧
    (∀ i : Nat,
      StoreInv (delete_pour i s).2 ∧
      ((delete_pour i s).2.pours ++ (delete_pour i s).2.deleted).Perm
        (s.pours ++ s.deleted)) := by
  refine ⟨?_, ?_, ?_⟩
  · intro freshId pd hfresh
    by_cases hc : pd.company ∈ PREDEFINED_COMPANIES
    · have hstate : (submit_pour freshId pd s).2 =
          ⟨s.pours ++ [pourOfCreate freshId pd], s.deleted,
           save_data (s.pours ++ [pourOfCreate freshId pd])⟩ := by
        simp [submit_pour, hc]
      rw [hstate]
      exact append_fresh_inv s (pourOfCreate freshId pd) _ hs hfresh
    · have hstate : (submit_pour freshId pd s).2 = s := by simp [submit_pour, hc]
      rw [hstate]; exact hs
  · intro freshId company area tag dateStr v c hfresh
    cases hd : parse_date dateStr with
    | none =>
      have hstate : (handle_form freshId company area tag dateStr v c s).2 = s := by
        simp [handle_form, hd]
      rw [hstate]; exact hs
    | some d =>
      by_cases hc : company ∈ PREDEFINED_COMPANIES
      · have hstate : (handle_form freshId company area tag dateStr v c s).2 =
            ⟨s.pours ++ [⟨freshId, company, area, tag, d, v, c⟩], s.deleted,
             save_data (s.pours ++ [⟨freshId, company, area, tag, d, v, c⟩])⟩ := by
          simp [handle_form, hd, hc]
        rw [hstate]
        exact append_fresh_inv s ⟨freshId, company, area, tag, d, v, c⟩ _ hs hfresh
      · have hstate : (handle_form freshId company area tag dateStr v c s).2 = s := by
          simp [handle_form, hd, hc]
        rw [hstate]; exact hs
  · intro i
    cases hf : s.pours.find? (fun p => p.id == i) with
    | none =>
      have hstate : (delete_pour i s).2 = s := by simp [delete_pour, hf]
      rw [hstate]; exact ⟨hs, List.Perm.refl _⟩
    | some found =>
      have hmem : found ∈ s.pours := List.mem_of_find?_eq_some hf
      have hstate : (delete_pour i s).2 =
          ⟨s.pours.erase found, s.deleted ++ [found],
           save_data (s.pours.erase found)⟩ := by
        simp [delete_pour, hf]
      rw [hstate]
      have h1 : (s.pours.erase found ++ (s.deleted ++ [found])).Perm
          (s.pours.erase found ++ (found :: s.deleted)) :=
        List.Perm.append_left _ (List.perm_append_singleton _ _)
      have h2 : (s.pours.erase found ++ (found :: s.deleted)).Perm
          (found :: (s.pours.erase found ++ s.deleted)) := List.perm_middle
      have h3 : (found :: (s.pours.erase found ++ s.deleted)).Perm
          (s.pours ++ s.deleted) :=
        (List.perm_cons_erase hmem).symm.append_right s.deleted
      have hperm := (h1.trans h2).trans h3
      exact ⟨((hperm.map Pour.id).nodup_iff).mpr hs, hperm⟩

/-- Witness for C9: a concrete well-formed store, a create with a fresh id,
and a delete of an existing record. -/
theorem C9_witness :
    StoreInv ⟨[pMar10], [pFeb20], .missing⟩ ∧
    StoreInv (submit_pour 5 ⟨"PCL", "A", "T", ⟨2024, 1, 1⟩, 10, none⟩
      ⟨[pMar10], [pFeb20], .missing⟩).2 ∧
    StoreInv (delete_pour 1 ⟨[pMar10], [pFeb20], .missing⟩).2 :=
  ⟨by simp only [StoreInv]; decide,
   (C9_active_deleted_disjoint ⟨[pMar10], [pFeb20], .missing⟩
     (by simp only [StoreInv]; decide)).1 5 ⟨"PCL", "A", "T", ⟨2024, 1, 1⟩, 10, none⟩
     (by decide),
   ((C9_active_deleted_disjoint ⟨[pMar10], [pFeb20], .missing⟩
     (by simp only [StoreInv]; decide)).2.2 1).1⟩

/-- C10: for the same record the calendar title shows the volume through
the default float-to-string conversion with no rounding (modeled exactly
for binary-representable decimals), while the PDF row formats it to one
decimal place with ties to even; at volume 12.25 the calendar shows
"12.25" and the export shows "12.2", different texts for the same record
(at 12.5 the two agree, so the divergence is only for some volumes). -/
theorem C10_volume_format_divergence :
    eventTitle p1225 = "Bird: Slab-4 (West Wing) - 12.25m³" ∧
    (pourRow p1225).volume = "12.2" ∧
    fPyRepr (12.25 : ℚ) = "12.25" ∧
    fFixed1 (12.25 : ℚ) = "12.2" ∧
    ("12.25" : String) ≠ "12.2" ∧
    fPyRepr (12.5 : ℚ) = "12.5" ∧
    fFixed1 (12.5 : ℚ) = "12.5" := by
  refine ⟨?_, ?_, ?_, ?_, ?_, ?_, ?_⟩
  · with_unfolding_all rfl
  · with_unfolding_all rfl
  · with_unfolding_all rfl
  · with_unfolding_all rfl
  · decide
  · with_unfolding_all rfl
  · with_unfolding_all rfl

end ConcretePour
